import Mathlib

/-!
Shallow embedding of the RelAI Temporal workflow layer
(`temporal_workflows/activities.py`, `temporal_workflows/workflows.py`,
`temporal_workflows/service.py`) over the MongoDB task service
(`mongodb/task_service.py`, `mongodb/workflow_service.py`).

Python dictionaries, strings, booleans and `None` are embedded as the
`PyVal` inductive; Python exceptions as `PyErr`; fallible code runs in
`Except PyErr`.  External collaborators (the pymongo collections, the
`datetime.fromisoformat` parser, the Temporal client) are supplied as an
explicit environment `Env`; everything written in the repository itself is
translated line by line from the source.
-/

namespace RelAI

/-- Embedding of the Python runtime values the workflow layer manipulates:
`None`, booleans, strings, integers (also standing for `datetime` values
stored in documents, as epoch seconds) and dictionaries. -/
inductive PyVal where
  | none : PyVal
  | bool : Bool → PyVal
  | str : String → PyVal
  | int : Int → PyVal
  | dict : List (String × PyVal) → PyVal

/-- First-match key lookup in a dict literal (the literals built by this
code base never repeat a key), defaulting to `None` like Python's
`dict.get`. -/
def lookupKey : List (String × PyVal) → String → PyVal
  | [], _ => PyVal.none
  | (k, v) :: rest, key => if k = key then v else lookupKey rest key

/-- `v.get(key)`: Python `dict.get` with default `None`.  The workflow
layer only ever calls `.get` on activity-result dictionaries. -/
def PyVal.get : PyVal → String → PyVal
  | PyVal.dict fields, key => lookupKey fields key
  | _, _ => PyVal.none

/-- Python truthiness for the embedded values: `None` is falsy, a string
or dict is truthy iff non-empty, an int iff non-zero. -/
def PyVal.truthy : PyVal → Bool
  | PyVal.none => false
  | PyVal.bool b => b
  | PyVal.str s => !s.isEmpty
  | PyVal.int n => if n = 0 then false else true
  | PyVal.dict fields => !fields.isEmpty

/-- Does the dictionary carry this key? -/
def PyVal.hasKey : PyVal → String → Bool
  | PyVal.dict fields, key => fields.any (fun p => p.1 = key)
  | _, _ => false

/-- Is the value a Python `bool`? -/
def PyVal.isBool : PyVal → Bool
  | PyVal.bool _ => true
  | _ => false

/-- Python exceptions raised by the embedded code: `TypeError` (wrong call
arity, naive/aware datetime subtraction), `ValueError` (ISO parse
failure), `AttributeError` (missing method or attribute) and a generic
catch-all for collaborator faults. -/
inductive PyErr where
  | typeError (m : String) : PyErr
  | valueError (m : String) : PyErr
  | attributeError (m : String) : PyErr
  | exc (m : String) : PyErr

/-- `str(e)` of an exception. -/
def PyErr.msg : PyErr → String
  | PyErr.typeError m => m
  | PyErr.valueError m => m
  | PyErr.attributeError m => m
  | PyErr.exc m => m

/-- A Python `datetime`: whether it carries a timezone (`aware`) and its
instant as seconds.  `datetime.utcnow()` is naive; `fromisoformat` on a
string with a UTC offset is aware. -/
structure DT where
  aware : Bool
  seconds : Int

/-- `deadline - now` on datetimes.  Python raises `TypeError` when one
operand is offset-aware and the other offset-naive; otherwise the result
is the signed difference in seconds. -/
def dtSub (a b : DT) : Except PyErr Int :=
  if a.aware = b.aware then Except.ok (a.seconds - b.seconds)
  else Except.error (PyErr.typeError "cannot subtract offset-naive and offset-aware datetimes")

/-- External collaborators as the activities see them after the
`if not task_service.db: task_service.connect()` preamble (that preamble
never raises: `connect` catches its own failures and returns a Bool).
`db` says whether `task_service.db` is set afterwards; `wdb` is the value
of `workflow_service.db or workflow_service.connect()`.  The pymongo
calls and the ISO parser may raise arbitrarily. -/
structure Env where
  /-- is `task_service.db` non-None (after the ensure-connection step) -/
  db : Bool
  /-- `collection.insert_one` followed by `find_one` of the inserted id:
  the created document (source of `TaskService.create_task`). -/
  insert_find : PyVal → Except PyErr PyVal
  /-- `collection.update_one` + fetch: `some doc` when `modified_count > 0`,
  `none` when no document matched (source of `TaskService.update_task`). -/
  update_one : PyVal → PyVal → Except PyErr (Option PyVal)
  /-- `ObjectId(task_id)` + `collection.find_one` (source of
  `TaskService.get_task_by_id`); a malformed id raises here. -/
  find_one : PyVal → Except PyErr (Option PyVal)
  /-- `workflow_service.db or workflow_service.connect()` -/
  wdb : Bool
  /-- `datetime.fromisoformat`: a `ValueError` on non-ISO input, otherwise
  a datetime that is aware exactly when the string carries an offset. -/
  fromisoformat : String → Except PyErr DT
  /-- `datetime.utcnow()` as naive epoch seconds. -/
  now : Int

/-- Python value of an `Optional` service result (`None` for `none`). -/
def optToVal : Option PyVal → PyVal
  | Option.some v => v
  | Option.none => PyVal.none

/-- The `try:`/`except Exception as e:` boundary every activity wraps its
body in: a raised exception becomes `{"success": False, "error": str(e)}`
(`activities.py`, each `except` clause). -/
def pyCatch (x : Except PyErr PyVal) : PyVal :=
  match x with
  | Except.ok v => v
  | Except.error e => PyVal.dict [("success", PyVal.bool false), ("error", PyVal.str e.msg)]

namespace TaskService

/-- `TaskService.create_task` (`task_service.py` lines 73-106): with no
connection return `None`; otherwise insert (timestamps added to the
payload first) and fetch the created document; any exception is caught
and turned into `None`. -/
def create_task (env : Env) (task_data : PyVal) : Option PyVal :=
  if env.db then
    match env.insert_find task_data with
    | Except.ok doc => Option.some doc
    | Except.error _ => Option.none
  else Option.none

/-- `TaskService.update_task` (lines 187-226): with no connection `None`;
`update_one` then, when `modified_count > 0`, fetch and return the updated
document, else `None`; any exception is caught and turned into `None`. -/
def update_task (env : Env) (task_id update_data : PyVal) : Option PyVal :=
  if env.db then
    match env.update_one task_id update_data with
    | Except.ok (Option.some doc) => Option.some doc
    | Except.ok Option.none => Option.none
    | Except.error _ => Option.none
  else Option.none

/-- `TaskService.get_task_by_id` (lines 131-159): with no connection
`None`; otherwise `find_one` on the parsed ObjectId; any exception
(including a malformed id) is caught and turned into `None`. -/
def get_task_by_id (env : Env) (task_id : PyVal) : Option PyVal :=
  if env.db then
    match env.find_one task_id with
    | Except.ok r => r
    | Except.error _ => Option.none
  else Option.none

/-- `TaskService.assign_task` (lines 257-268): an update setting
`assignedTo`. -/
def assign_task (env : Env) (task_id user_id : PyVal) : Option PyVal :=
  update_task env task_id (PyVal.dict [("assignedTo", user_id)])

/-- `TaskService.relay_task` (lines 283-300).  The Python method takes
exactly the three caller arguments `(task_id, from_user, to_user)` — there
is no `message` parameter. -/
def relay_task (env : Env) (task_id from_user to_user : PyVal) : Option PyVal :=
  update_task env task_id
    (PyVal.dict [("relayedFrom", from_user), ("assignedTo", to_user),
                 ("relayedAt", PyVal.int env.now)])

end TaskService

/-- Positional application of the Python method `TaskService.relay_task`
to an argument list, as at `activities.py` line 83: the method accepts
exactly 3 caller arguments, so any other count raises `TypeError` at the
call site (Python counts the bound `self` too in its message). -/
def relay_task_apply (env : Env) (args : List PyVal) : Except PyErr (Option PyVal) :=
  match args with
  | [task_id, from_user, to_user] =>
      Except.ok (TaskService.relay_task env task_id from_user to_user)
  | _ =>
      Except.error (PyErr.typeError
        "relay_task() takes 4 positional arguments but 5 were given")

/-- `create_task_activity` (`activities.py` lines 17-32): calls
`task_service.create_task(task_data)` — which returns the created
document, or `None` on any store failure, and never raises — binds the
result to the variable `task_id`, and returns
`{"success": True, "task_id": task_id}` unconditionally. -/
def create_task_activity (env : Env) (task_data : PyVal) : PyVal :=
  pyCatch (do
    let task_id := optToVal (TaskService.create_task env task_data)
    pure (PyVal.dict [("success", PyVal.bool true), ("task_id", task_id)]))

/-- `update_task_activity` (lines 34-49): `success` is the raw return of
`task_service.update_task` — the updated document or `None`, not a
boolean — stored under the `"success"` key. -/
def update_task_activity (env : Env) (task_id update_data : PyVal) : PyVal :=
  pyCatch (do
    let success := optToVal (TaskService.update_task env task_id update_data)
    pure (PyVal.dict [("success", success), ("task_id", task_id)]))

/-- `assign_task_activity` (lines 51-72): assigns via the store, then —
when the workflow-service guard holds — evaluates
`workflow_service.update_user_workflow(...)`.  `WorkflowService`
(`workflow_service.py`) defines no such method, so that attribute access
raises `AttributeError`, caught by the activity boundary. -/
def assign_task_activity (env : Env) (task_id user_id : PyVal) : PyVal :=
  pyCatch (do
    let success := optToVal (TaskService.assign_task env task_id user_id)
    if env.wdb then
      throw (PyErr.attributeError
        "WorkflowService object has no attribute update_user_workflow")
    else
      pure ()
    pure (PyVal.dict [("success", success), ("task_id", task_id), ("user_id", user_id)]))

/-- `relay_task_activity` (lines 74-107): calls
`task_service.relay_task(task_id, from_user, to_user, message)` — one
positional argument more than the method accepts — then would update both
users' workflow views (`add_handoff` / `add_incoming_task`, neither of
which `WorkflowService` defines) and return the success dictionary. -/
def relay_task_activity (env : Env) (task_id from_user to_user message : PyVal) : PyVal :=
  pyCatch (do
    let _result ← relay_task_apply env [task_id, from_user, to_user, message]
    if env.wdb then
      throw (PyErr.attributeError
        "WorkflowService object has no attribute add_handoff")
    else
      pure ()
    pure (PyVal.dict [("success", PyVal.bool true), ("task_id", task_id),
                      ("from_user", from_user), ("to_user", to_user)]))

/-- `send_notification_activity` (lines 109-122): logs and returns
success; the `notification_type` argument only feeds the log line. -/
def send_notification_activity (user_id message _notification_type : PyVal) : PyVal :=
  pyCatch
    (pure (PyVal.dict [("success", PyVal.bool true), ("user_id", user_id),
                       ("message", message)]))

/-- Single-character replacement on the character data: the source's
`estimated_handoff.replace('Z', '+00:00')` (line 142). -/
def replaceZchars : List Char → List Char
  | [] => []
  | c :: cs =>
      if c = 'Z' then '+' :: '0' :: '0' :: ':' :: '0' :: '0' :: replaceZchars cs
      else c :: replaceZchars cs

/-- `s.replace('Z', '+00:00')`. -/
def replaceZ (s : String) : String := String.mk (replaceZchars s.data)

/-- Body of `check_task_deadline_activity` (lines 124-163), inside the
outer `try`: fetch the task (the service itself never raises); with no
task report failure; with a truthy `estimatedHandoff` parse it (the inner
`except ValueError` yields the `Invalid deadline format` result; any
other exception — the `TypeError` from subtracting an aware deadline from
the naive `utcnow()`, or the `AttributeError` of calling `.replace` on a
non-string — escapes to the outer handler); otherwise report
`has_deadline: False`.  The source also reports `time_remaining_hours`
as a float; the embedding records the exact remaining seconds instead. -/
def check_deadline_body (env : Env) (task_id : PyVal) : Except PyErr PyVal :=
  match TaskService.get_task_by_id env task_id with
  | Option.none =>
      pure (PyVal.dict [("success", PyVal.bool false), ("error", PyVal.str "Task not found")])
  | Option.some task =>
      let estimated_handoff := task.get "estimatedHandoff"
      if estimated_handoff.truthy then
        match estimated_handoff with
        | PyVal.str s =>
            match env.fromisoformat (replaceZ s) with
            | Except.error (PyErr.valueError _) =>
                pure (PyVal.dict [("success", PyVal.bool false),
                                  ("error", PyVal.str "Invalid deadline format")])
            | Except.error e => throw e
            | Except.ok deadline =>
                match dtSub deadline { aware := false, seconds := env.now } with
                | Except.error e => throw e
                | Except.ok rem =>
                    pure (PyVal.dict
                      [("success", PyVal.bool true), ("task_id", task_id),
                       ("deadline", PyVal.str s),
                       ("is_approaching", PyVal.bool (decide (rem ≤ 24 * 3600) && decide (0 < rem))),
                       ("is_overdue", PyVal.bool (decide (rem ≤ 0))),
                       ("time_remaining_seconds", PyVal.int rem)])
        | _ => throw (PyErr.attributeError "estimatedHandoff has no attribute replace")
      else
        pure (PyVal.dict [("success", PyVal.bool true), ("task_id", task_id),
                          ("has_deadline", PyVal.bool false)])

/-- `check_task_deadline_activity`: the body under the uniform
exception-to-failure boundary. -/
def check_task_deadline_activity (env : Env) (task_id : PyVal) : PyVal :=
  pyCatch (check_deadline_body env task_id)

/-- `cleanup_completed_tasks_activity` (lines 165-183): computes
`cutoff_date = utcnow() - days_old` days and returns a placeholder
success result (the source reports the cutoff as an ISO string; the
embedding keeps the instant in seconds). -/
def cleanup_completed_tasks_activity (env : Env) (days_old : Int) : PyVal :=
  pyCatch
    (pure (PyVal.dict [("success", PyVal.bool true),
                       ("cutoff_date", PyVal.int (env.now - days_old * 86400)),
                       ("cleaned_count", PyVal.int 0)]))

/-! ### Workflows (`workflows.py`) -/

/-- Mutable instance state of `TaskLifecycleWorkflow` (lines 28-31).
The Python fields are annotated `Optional[str]` but hold whatever the
dynamic code stores in them (`task_id` receives
`create_result["task_id"]`), so both are embedded as `PyVal`. -/
structure LifecycleState where
  task_id : PyVal
  assigned_user : PyVal
  is_completed : Bool

/-- `task_completed_signal` (lines 123-127). -/
def task_completed_signal (s : LifecycleState) : LifecycleState :=
  { s with is_completed := true }

/-- `task_reassigned_signal` (lines 129-134). -/
def task_reassigned_signal (s : LifecycleState) (new_user : PyVal) : LifecycleState :=
  { s with assigned_user := new_user }

/-- A signal delivered to a running `TaskLifecycleWorkflow` instance. -/
inductive Sig where
  | completed : Sig
  | reassigned (new_user : PyVal) : Sig

/-- Dispatch one delivered signal to its handler. -/
def applySig (s : LifecycleState) : Sig → LifecycleState
  | Sig.completed => task_completed_signal s
  | Sig.reassigned new_user => task_reassigned_signal s new_user

/-- Apply the signals delivered during one stretch of execution, in
delivery order. -/
def applySigs (s : LifecycleState) (sigs : List Sig) : LifecycleState :=
  sigs.foldl applySig s

/-- A notification issued through `send_notification_activity`: the
recipient and the `notification_type` argument (the message text is an
f-string over the task id, irrelevant to the claims). -/
structure Notif where
  user : PyVal
  ntype : String

/-- The notification decision of one monitoring iteration
(`_monitor_task_progress`, lines 97-116): only on a successful deadline
check; `deadline_warning` when `is_approaching` and `self.assigned_user`
are truthy, `elif` `deadline_overdue` when `is_overdue` and
`self.assigned_user` are truthy. -/
def deadlineNotifications (assigned_user deadline_check : PyVal) : List Notif :=
  if (deadline_check.get "success").truthy then
    if (deadline_check.get "is_approaching").truthy && assigned_user.truthy then
      [{ user := assigned_user, ntype := "deadline_warning" }]
    else if (deadline_check.get "is_overdue").truthy && assigned_user.truthy then
      [{ user := assigned_user, ntype := "deadline_overdue" }]
    else []
  else []

/-- One iteration of the monitoring loop as the environment sees it: the
signals delivered while the iteration is in flight (during the 1-hour
sleep or the activity calls — handled at await points, they mutate the
instance state without resuming the loop early) and the outcome of the
`check_task_deadline_activity` call (`Except.error` when the activity
execution itself raises, e.g. on timeout). -/
structure MonIter where
  sigs : List Sig
  check : Except PyErr PyVal

/-- The state and notifications produced by one full loop iteration
(lines 87-121): the delivered signals update the state; a raised
exception is caught by the in-loop `except` and produces no
notification. -/
def monitorStep (s : LifecycleState) (it : MonIter) : LifecycleState × List Notif :=
  let s2 := applySigs s it.sigs
  match it.check with
  | Except.error _ => (s2, [])
  | Except.ok deadline_check => (s2, deadlineNotifications s2.assigned_user deadline_check)

/-- State at the next iteration boundary. -/
def stepState (s : LifecycleState) (it : MonIter) : LifecycleState :=
  applySigs s it.sigs

/-- `_monitor_task_progress` (lines 84-121) run against a schedule of
iteration events: `while not self.is_completed` is checked at each
iteration boundary; when it fails the loop runs one full iteration and
recurses.  `some (final, notifs)` means the loop exited within the given
schedule; `none` means it is still running after consuming it. -/
def monitorRun (s : LifecycleState) : List MonIter → Option (LifecycleState × List Notif)
  | [] => if s.is_completed then Option.some (s, []) else Option.none
  | it :: rest =>
      if s.is_completed then Option.some (s, [])
      else
        match monitorRun (stepState s it) rest with
        | Option.some (f, ms) => Option.some (f, (monitorStep s it).2 ++ ms)
        | Option.none => Option.none

/-- The instance state at boundary `k` (after `k` full iterations). -/
def boundaryState (s : LifecycleState) (its : List MonIter) (k : Nat) : LifecycleState :=
  (its.take k).foldl stepState s

/-- Step 3-4 of `TaskLifecycleWorkflow.run` (lines 76-78): run the
monitoring loop, then return `{"success": True, "task_id": self.task_id}`. -/
def monitor_and_return (s : LifecycleState) (its : List MonIter) : Option PyVal :=
  (monitorRun s its).map
    (fun p => PyVal.dict [("success", PyVal.bool true), ("task_id", p.1.task_id)])

/-- Step 1 of `TaskLifecycleWorkflow.run` (lines 38-50): run the create
activity (deterministic and non-raising, so the ×3 retry policy returns
its single result); on a falsy `"success"` return
`{"success": False, "error": "Failed to create task"}` (`Except.error`
here is the early return), otherwise continue with
`self.task_id = create_result["task_id"]`. -/
def lifecycle_create_step (env : Env) (task_data : PyVal) : Except PyVal LifecycleState :=
  let create_result := create_task_activity env task_data
  if (create_result.get "success").truthy then
    Except.ok { task_id := create_result.get "task_id",
                assigned_user := PyVal.none, is_completed := false }
  else
    Except.error (PyVal.dict [("success", PyVal.bool false),
                              ("error", PyVal.str "Failed to create task")])

/-- `TaskRelayWorkflow.run` (lines 140-187): relay activity (retried ×3;
it is deterministic and never raises, so every attempt returns the same
dictionary); on falsy success return the failure dictionary with no
notifications; otherwise send the two notifications and return the
success dictionary. -/
def TaskRelayWorkflow_run (env : Env) (task_id from_user to_user message : PyVal) :
    PyVal × List Notif :=
  let relay_result := relay_task_activity env task_id from_user to_user message
  if (relay_result.get "success").truthy then
    (PyVal.dict [("success", PyVal.bool true), ("task_id", task_id),
                 ("from_user", from_user), ("to_user", to_user)],
     [{ user := to_user, ntype := "task_relay_received" },
      { user := from_user, ntype := "task_relay_sent" }])
  else
    (PyVal.dict [("success", PyVal.bool false),
                 ("error", PyVal.str "Failed to relay task")], [])

/-- The `days_old` argument `PeriodicCleanupWorkflow.run` passes to the
cleanup activity (line 204). -/
def cleanup_days_old_arg : Int := 30

/-- `RetryPolicy(maximum_attempts=2)` on the cleanup activity call
(line 206). -/
def cleanup_retry_maximum_attempts : Nat := 2

/-- The default `cleanup_interval_days` (line 194). -/
def cleanup_interval_days_default : Nat := 1

/-- One scheduled iteration's cleanup call as issued by
`PeriodicCleanupWorkflow.run`. -/
def periodic_cleanup_iteration (env : Env) : PyVal :=
  cleanup_completed_tasks_activity env cleanup_days_old_arg

/-- `PeriodicCleanupWorkflow.run` (lines 193-213) against the sequence of
cleanup-call outcomes: the `try`/`except` wraps the whole `while True`
loop, so an iteration whose activity execution returns a result — of any
content — is logged and the loop continues (`none`: still running after
the given outcomes), while a raised exception escapes the loop and the
workflow returns `{"success": False, "error": str(e)}`. -/
def periodic_cleanup_run : List (Except PyErr PyVal) → Option PyVal
  | [] => Option.none
  | Except.ok _ :: rest => periodic_cleanup_run rest
  | Except.error e :: _ =>
      Option.some (PyVal.dict [("success", PyVal.bool false),
                               ("error", PyVal.str e.msg)])

/-! ### Orchestration service (`service.py`) -/

/-- Character-level lowercase, the `.lower()` of the source. -/
def pyLower (s : String) : String := String.mk (s.data.map Char.toLower)

/-- Python's `needle in hay` substring test, on character data. -/
def listContainsSub (hay needle : List Char) : Bool :=
  match hay with
  | [] => needle.isEmpty
  | _ :: cs => needle.isPrefixOf hay || listContainsSub cs needle

/-- `needle in hay` on strings. -/
def strContains (hay needle : String) : Bool :=
  listContainsSub hay.data needle.data

/-- `TemporalService.start_periodic_cleanup_workflow` (`service.py`
lines 145-178): always target the fixed id
`"periodic-cleanup-singleton"`; if the client's `start_workflow` raises,
swallow the exception exactly when its lowercased text contains
`"already exists"`, otherwise re-raise (the outer handler logs and
re-raises).  The Temporal client is abstracted as `start_workflow`,
mapping the targeted workflow id to success or a raised message. -/
def start_periodic_cleanup_workflow (start_workflow : String → Except String Unit) :
    Except String String :=
  match start_workflow "periodic-cleanup-singleton" with
  | Except.ok _ => Except.ok "periodic-cleanup-singleton"
  | Except.error e =>
      if strContains (pyLower e) "already exists" then Except.ok "periodic-cleanup-singleton"
      else Except.error e

/-! ### Concrete environments for evaluation -/

/-- No MongoDB connection string: `task_service.db` stays `None` even
after `connect()` (which catches its own failure and returns `False`),
and likewise for the workflow service. -/
def envDisconnected : Env :=
  { db := false
    insert_find := fun _ => Except.error (PyErr.exc "not connected")
    update_one := fun _ _ => Except.error (PyErr.exc "not connected")
    find_one := fun _ => Except.error (PyErr.exc "not connected")
    wdb := false
    fromisoformat := fun _ => Except.error (PyErr.valueError "Invalid isoformat string")
    now := 0 }

/-- The sample task of `task_service.py` `main` (lines 324-332): its
`estimatedHandoff` is the duration string `"2h"`. -/
def task2h : PyVal :=
  PyVal.dict [("_id", PyVal.str "665f1c0ffee1badc0ffee100"),
              ("title", PyVal.str "Design System Components"),
              ("estimatedHandoff", PyVal.str "2h")]

/-- A connected store holding `task2h`; `fromisoformat` rejects every
string it is offered (as Python does with `"2h"`). -/
def envIso2h : Env :=
  { db := true
    insert_find := fun _ => Except.error (PyErr.exc "unused")
    update_one := fun _ _ => Except.error (PyErr.exc "unused")
    find_one := fun _ => Except.ok (Option.some task2h)
    wdb := false
    fromisoformat := fun _ => Except.error (PyErr.valueError "Invalid isoformat string")
    now := 0 }

/-- The demo task of `demo_temporal.py` (line 30): `estimatedHandoff` is
the Z-suffixed UTC timestamp `"2025-01-30T12:00:00Z"`. -/
def taskAware : PyVal :=
  PyVal.dict [("_id", PyVal.str "665f1c0ffee1badc0ffee101"),
              ("title", PyVal.str "Complete project proposal"),
              ("estimatedHandoff", PyVal.str "2025-01-30T12:00:00Z")]

/-- A connected store holding `taskAware`; `fromisoformat` parses the
offset form of its deadline into an offset-aware datetime (Python's
behavior for strings carrying `+00:00`) and rejects everything else.
`now` is a naive instant before the deadline. -/
def envAware : Env :=
  { db := true
    insert_find := fun _ => Except.error (PyErr.exc "unused")
    update_one := fun _ _ => Except.error (PyErr.exc "unused")
    find_one := fun _ => Except.ok (Option.some taskAware)
    wdb := false
    fromisoformat := fun s =>
      if s = "2025-01-30T12:00:00+00:00" then
        Except.ok { aware := true, seconds := 1738238400 }
      else Except.error (PyErr.valueError "Invalid isoformat string")
    now := 1738000000 }

/-- The Temporal client's behavior when a workflow with the requested id
is already running: `client.start_workflow` raises
`WorkflowAlreadyStartedError`, whose exception text is
"Workflow execution already started" (the temporalio SDK; outside this
repository). -/
def already_started_client : String → Except String Unit :=
  fun _ => Except.error "Workflow execution already started"

/-- A deadline-check result reporting `is_overdue` with no assignee set
on the workflow side. -/
def overdueCheck : PyVal :=
  PyVal.dict [("success", PyVal.bool true), ("task_id", PyVal.str "t1"),
              ("deadline", PyVal.str "2025-01-30T12:00:00"),
              ("is_approaching", PyVal.bool false), ("is_overdue", PyVal.bool true)]

/-! ### Helper lemmas -/

theorem applySigs_completed_mono (sigs : List Sig) :
    ∀ s : LifecycleState, s.is_completed = true → (applySigs s sigs).is_completed = true := by
  induction sigs with
  | nil => intro s h; exact h
  | cons g gs ih =>
      intro s h
      refine ih (applySig s g) ?_
      cases g with
      | completed => rfl
      | reassigned u => simpa [applySig, task_reassigned_signal] using h

theorem applySigs_completed_of_mem (sigs : List Sig) :
    ∀ s : LifecycleState, Sig.completed ∈ sigs → (applySigs s sigs).is_completed = true := by
  induction sigs with
  | nil => intro s h; cases h
  | cons g gs ih =>
      intro s h
      rcases List.mem_cons.mp h with hg | hgs
      · subst hg
        exact applySigs_completed_mono gs _ rfl
      · exact ih (applySig s g) hgs

theorem monitorRun_completed (s : LifecycleState) (its : List MonIter)
    (h : s.is_completed = true) : monitorRun s its = Option.some (s, []) := by
  cases its <;> simp [monitorRun, h]

theorem boundaryState_cons_succ (s : LifecycleState) (it : MonIter) (rest : List MonIter)
    (k : Nat) : boundaryState s (it :: rest) (k + 1) = boundaryState (stepState s it) rest k := by
  simp [boundaryState, List.take_succ_cons]

/-! ### Claim theorems -/

/-- C9: the `task_reassigned` signal handler sets `assigned_user` to the
new user and leaves `is_completed` and `task_id` unchanged; the
`task_completed` handler sets `is_completed` to `true` and leaves
`assigned_user` and `task_id` unchanged. -/
theorem signal_handlers_frame :
    ∀ (s : LifecycleState) (new_user : PyVal),
      (task_reassigned_signal s new_user).assigned_user = new_user ∧
      (task_reassigned_signal s new_user).is_completed = s.is_completed ∧
      (task_reassigned_signal s new_user).task_id = s.task_id ∧
      (task_completed_signal s).is_completed = true ∧
      (task_completed_signal s).assigned_user = s.assigned_user ∧
      (task_completed_signal s).task_id = s.task_id := by
  intro s new_user
  exact ⟨rfl, rfl, rfl, rfl, rfl, rfl⟩

/-- C1: for every environment and input, `relay_task_activity` passes one
positional argument more than `TaskService.relay_task` accepts, so the
call raises `TypeError` before the store is touched, the activity
boundary converts it to `success=False`, and `TaskRelayWorkflow` always
returns `{"success": False, "error": "Failed to relay task"}` without
sending any notification — the relay can never succeed. -/
theorem relay_activity_always_fails :
    ∀ (env : Env) (task_id from_user to_user message : PyVal),
      relay_task_activity env task_id from_user to_user message =
        PyVal.dict [("success", PyVal.bool false),
          ("error", PyVal.str "relay_task() takes 4 positional arguments but 5 were given")] ∧
      TaskRelayWorkflow_run env task_id from_user to_user message =
        (PyVal.dict [("success", PyVal.bool false),
          ("error", PyVal.str "Failed to relay task")], []) := by
  intro env task_id from_user to_user message
  exact ⟨rfl, rfl⟩

/-- C2: when the store create produces no task record (here: no database
connection, so `TaskService.create_task` returns `None` without
raising), `create_task_activity` still reports
`{"success": True, "task_id": None}`, and `TaskLifecycleWorkflow` does
not terminate with `{success: False}`: it proceeds past the create step
with `task_id = None`. -/
theorem create_failure_reported_as_success :
    create_task_activity envDisconnected (PyVal.dict [("title", PyVal.str "T")]) =
      PyVal.dict [("success", PyVal.bool true), ("task_id", PyVal.none)] ∧
    lifecycle_create_step envDisconnected (PyVal.dict [("title", PyVal.str "T")]) =
      Except.ok { task_id := PyVal.none, assigned_user := PyVal.none, is_completed := false } :=
  ⟨rfl, rfl⟩

/-- C5 counterexample: a successful deadline check reporting
`is_overdue = True` while no assignee is set produces no notification at
all — the claim's "the overdue notification is not conditioned on an
assignee being set" is false. -/
theorem overdue_without_assignee_sends_nothing :
    (overdueCheck.get "success").truthy = true ∧
    (overdueCheck.get "is_overdue").truthy = true ∧
    deadlineNotifications PyVal.none overdueCheck = [] :=
  ⟨rfl, rfl, rfl⟩

/-- C5 (amended): in an iteration whose deadline check succeeds, a
`deadline_warning` notification is sent iff the check reports
`is_approaching` and an assignee is set, and a `deadline_overdue`
notification is sent iff the warning branch was not taken (`elif`), the
check reports `is_overdue`, and an assignee is set. -/
theorem deadline_notification_conditions :
    ∀ (assigned_user deadline_check : PyVal),
      (({ user := assigned_user, ntype := "deadline_warning" } : Notif) ∈
          deadlineNotifications assigned_user deadline_check ↔
        ((deadline_check.get "success").truthy = true ∧
         (deadline_check.get "is_approaching").truthy = true ∧
         assigned_user.truthy = true)) ∧
      (({ user := assigned_user, ntype := "deadline_overdue" } : Notif) ∈
          deadlineNotifications assigned_user deadline_check ↔
        ((deadline_check.get "success").truthy = true ∧
         ¬((deadline_check.get "is_approaching").truthy = true ∧ assigned_user.truthy = true) ∧
         (deadline_check.get "is_overdue").truthy = true ∧
         assigned_user.truthy = true)) := by
  intro assigned_user deadline_check
  have hne : ("deadline_warning" : String) ≠ "deadline_overdue" := by decide
  have hne2 : ("deadline_overdue" : String) ≠ "deadline_warning" := by decide
  cases hs : (deadline_check.get "success").truthy <;>
    cases ha : (deadline_check.get "is_approaching").truthy <;>
      cases ho : (deadline_check.get "is_overdue").truthy <;>
        cases hu : assigned_user.truthy <;>
          simp [deadlineNotifications, hs, ha, ho, hu, Notif.mk.injEq, hne, hne2]

/-- C4 counterexample: a single iteration whose cleanup call raises (for
example after exhausting its 2 attempts) terminates
`PeriodicCleanupWorkflow` with `{"success": False, "error": ...}` — the
loop does not continue. -/
theorem cleanup_raise_terminates_loop :
    periodic_cleanup_run [Except.error (PyErr.exc "cleanup failed after retries")] =
      Option.some (PyVal.dict [("success", PyVal.bool false),
        ("error", PyVal.str "cleanup failed after retries")]) :=
  rfl

/-- C4 (amended): each iteration of `PeriodicCleanupWorkflow` sleeps, runs
CleanupCompletedTasks with `days_old = 30` under a maximum of 2 attempts,
logs the result and repeats; the loop runs forever as long as every
cleanup call returns a result — of any content, including
`success=False` — but the `try`/`except` sits outside the loop, so a
cleanup call that raises escapes the loop and the workflow terminates
with `{"success": False, "error": message}`. -/
theorem cleanup_loop_behavior :
    (∀ rs : List (Except PyErr PyVal),
        (∀ x ∈ rs, ∃ v, x = Except.ok v) → periodic_cleanup_run rs = Option.none) ∧
    (∀ (r : PyVal) (rest : List (Except PyErr PyVal)),
        periodic_cleanup_run (Except.ok r :: rest) = periodic_cleanup_run rest) ∧
    (∀ (e : PyErr) (rest : List (Except PyErr PyVal)),
        periodic_cleanup_run (Except.error e :: rest) =
          Option.some (PyVal.dict [("success", PyVal.bool false),
            ("error", PyVal.str e.msg)])) ∧
    cleanup_days_old_arg = 30 ∧
    cleanup_retry_maximum_attempts = 2 ∧
    (∀ env : Env, periodic_cleanup_iteration env =
        PyVal.dict [("success", PyVal.bool true),
          ("cutoff_date", PyVal.int (env.now - 30 * 86400)),
          ("cleaned_count", PyVal.int 0)]) := by
  refine ⟨?_, ?_, ?_, rfl, rfl, ?_⟩
  · intro rs
    induction rs with
    | nil => intro _; rfl
    | cons x rest ih =>
        intro h
        rcases h x (List.mem_cons_self x rest) with ⟨v, hv⟩
        subst hv
        simpa [periodic_cleanup_run] using ih (fun y hy => h y (List.mem_cons_of_mem _ hy))
  · intro r rest; rfl
  · intro e rest; rfl
  · intro env; rfl

/-- C4 witness: a run whose only scheduled cleanup call returns normally
leaves the loop still running. -/
theorem cleanup_loop_behavior_witness :
    periodic_cleanup_run [Except.ok (PyVal.dict [("success", PyVal.bool true)])] =
      Option.none := by
  exact cleanup_loop_behavior.1 [Except.ok (PyVal.dict [("success", PyVal.bool true)])]
    (by intro x hx; simp only [List.mem_singleton] at hx; exact ⟨_, hx⟩)

/-- C6 (evaluating the code at the failing input): at the runtime's
actual duplicate-start signal — `WorkflowAlreadyStartedError`, text
"Workflow execution already started" — the substring match of
`service.py` line 169 fails (the lowercased message does not contain
"already exists"), so the second start re-raises the exception to the
caller instead of returning the singleton id: the already-running case
is not treated as success, and the idempotent-start branch is dead
code. -/
theorem singleton_duplicate_start_reraises :
    start_periodic_cleanup_workflow already_started_client =
      Except.error "Workflow execution already started" ∧
    strContains (pyLower "Workflow execution already started") "already exists" = false :=
  ⟨rfl, rfl⟩

/-- C8 (evaluating the code at the failing input): the repository's own
demo deadline `"2025-01-30T12:00:00Z"` parses (after the code's
`Z → +00:00` rewrite) to an offset-aware datetime; subtracting the naive
`utcnow()` raises `TypeError`, which the outer handler converts to
`success=False` — not the claimed `success=True` with computed flags. -/
theorem aware_deadline_check_fails :
    check_task_deadline_activity envAware (PyVal.str "t1") =
      PyVal.dict [("success", PyVal.bool false),
        ("error", PyVal.str "cannot subtract offset-naive and offset-aware datetimes")] :=
  rfl

/-- C10: a stored `estimatedHandoff` that is a non-empty string rejected
by the ISO parser (Python raises `ValueError`, e.g. on the sample value
`"2h"`) makes `check_task_deadline_activity` return
`{"success": False, "error": "Invalid deadline format"}` rather than
raise, and the monitoring iteration sends no deadline notification on
such a result. -/
theorem invalid_deadline_format :
    ∀ (env : Env) (task_id task : PyVal) (s : String),
      TaskService.get_task_by_id env task_id = Option.some task →
      task.get "estimatedHandoff" = PyVal.str s →
      s.isEmpty = false →
      (∃ m, env.fromisoformat (replaceZ s) = Except.error (PyErr.valueError m)) →
      check_task_deadline_activity env task_id =
        PyVal.dict [("success", PyVal.bool false),
          ("error", PyVal.str "Invalid deadline format")] ∧
      ∀ assigned_user : PyVal,
        deadlineNotifications assigned_user (check_task_deadline_activity env task_id) = [] := by
  intro env task_id task s htask heh hne hiso
  rcases hiso with ⟨m, hm⟩
  have hres : check_task_deadline_activity env task_id =
      PyVal.dict [("success", PyVal.bool false),
        ("error", PyVal.str "Invalid deadline format")] := by
    simp only [check_task_deadline_activity, check_deadline_body, htask, heh, PyVal.truthy,
      hne, Bool.not_false, if_true, hm]
    rfl
  refine ⟨hres, ?_⟩
  intro assigned_user
  rw [hres]
  rfl

/-- C10 witness: the sample task with `estimatedHandoff = "2h"`. -/
theorem invalid_deadline_format_witness :
    check_task_deadline_activity envIso2h (PyVal.str "t1") =
      PyVal.dict [("success", PyVal.bool false),
        ("error", PyVal.str "Invalid deadline format")] ∧
    deadlineNotifications PyVal.none (check_task_deadline_activity envIso2h (PyVal.str "t1")) = [] := by
  have h := invalid_deadline_format envIso2h (PyVal.str "t1") task2h "2h" rfl rfl rfl
    ⟨"Invalid isoformat string", rfl⟩
  exact ⟨h.1, h.2 PyVal.none⟩

/-- Every branch of the deadline-check activity yields a dictionary whose
`"success"` entry is a genuine boolean. -/
theorem check_deadline_result_shape (env : Env) (task_id : PyVal) :
    (check_task_deadline_activity env task_id).hasKey "success" = true ∧
    PyVal.isBool ((check_task_deadline_activity env task_id).get "success") = true := by
  unfold check_task_deadline_activity check_deadline_body
  cases htask : TaskService.get_task_by_id env task_id with
  | none => exact ⟨rfl, rfl⟩
  | some task =>
      dsimp only
      repeat' split
      all_goals exact ⟨rfl, rfl⟩

/-- C7 counterexample: with no database connection,
`update_task_activity` stores the raw service return — here `None` —
under the `"success"` key: not a boolean. -/
theorem update_activity_success_not_boolean :
    (update_task_activity envDisconnected (PyVal.str "t1")
        (PyVal.dict [("progress", PyVal.int 50)])).get "success" = PyVal.none ∧
    PyVal.isBool ((update_task_activity envDisconnected (PyVal.str "t1")
        (PyVal.dict [("progress", PyVal.int 50)])).get "success") = false :=
  ⟨rfl, rfl⟩

/-- C7 (amended): every activity, for every input, returns a dictionary
carrying a `"success"` key and never propagates an exception (each body
runs under the uniform catch boundary); the key is a genuine boolean for
create, relay, send-notification, check-deadline and cleanup, while
update and assign store the raw store return — the updated task document
or `None` — under it (truthy exactly on success). -/
theorem activities_result_shape :
    ∀ (env : Env) (task_data task_id update_data user_id from_user to_user message
        notif_user notif_message notif_type : PyVal) (days_old : Int),
      ((create_task_activity env task_data).hasKey "success" = true ∧
        PyVal.isBool ((create_task_activity env task_data).get "success") = true) ∧
      (update_task_activity env task_id update_data).hasKey "success" = true ∧
      (assign_task_activity env task_id user_id).hasKey "success" = true ∧
      ((relay_task_activity env task_id from_user to_user message).hasKey "success" = true ∧
        PyVal.isBool
          ((relay_task_activity env task_id from_user to_user message).get "success") = true) ∧
      ((send_notification_activity notif_user notif_message notif_type).hasKey "success" = true ∧
        PyVal.isBool
          ((send_notification_activity notif_user notif_message notif_type).get "success") = true) ∧
      ((check_task_deadline_activity env task_id).hasKey "success" = true ∧
        PyVal.isBool ((check_task_deadline_activity env task_id).get "success") = true) ∧
      ((cleanup_completed_tasks_activity env days_old).hasKey "success" = true ∧
        PyVal.isBool ((cleanup_completed_tasks_activity env days_old).get "success") = true) := by
  intro env task_data task_id update_data user_id from_user to_user message
    notif_user notif_message notif_type days_old
  refine ⟨⟨rfl, rfl⟩, rfl, ?_, ⟨rfl, rfl⟩, ⟨rfl, rfl⟩,
    check_deadline_result_shape env task_id, ⟨rfl, rfl⟩⟩
  unfold assign_task_activity
  cases hw : env.wdb
  · rfl
  · rfl

/-- The exit test of the monitoring loop, characterized: the loop leaves
within a schedule of iterations exactly when `is_completed` holds at one
of its iteration boundaries. -/
theorem monitorRun_isSome_iff (its : List MonIter) :
    ∀ s : LifecycleState,
      (monitorRun s its).isSome = true ↔
        ∃ k, k ≤ its.length ∧ (boundaryState s its k).is_completed = true := by
  induction its with
  | nil =>
      intro s
      constructor
      · intro h
        refine ⟨0, Nat.le_refl 0, ?_⟩
        by_cases hc : s.is_completed = true
        · exact hc
        · rw [Bool.not_eq_true] at hc
          simp [monitorRun, hc] at h
      · rintro ⟨k, -, hk⟩
        have hs : s.is_completed = true := by simpa [boundaryState] using hk
        simp [monitorRun, hs]
  | cons it rest ih =>
      intro s
      by_cases hc : s.is_completed = true
      · constructor
        · intro _
          exact ⟨0, Nat.zero_le _, hc⟩
        · intro _
          simp [monitorRun, hc]
      · rw [Bool.not_eq_true] at hc
        have hred : (monitorRun s (it :: rest)).isSome =
            (monitorRun (stepState s it) rest).isSome := by
          cases hm : monitorRun (stepState s it) rest with
          | none => simp [monitorRun, hc, hm]
          | some p => cases p with | mk f ms => simp [monitorRun, hc, hm]
        rw [hred, ih (stepState s it)]
        constructor
        · rintro ⟨k, hk, hcomp⟩
          refine ⟨k + 1, Nat.succ_le_succ hk, ?_⟩
          rwa [boundaryState_cons_succ]
        · rintro ⟨k, hk, hcomp⟩
          cases k with
          | zero =>
              rw [show boundaryState s (it :: rest) 0 = s from rfl] at hcomp
              rw [hcomp] at hc
              cases hc
          | succ k' =>
              refine ⟨k', Nat.le_of_succ_le_succ hk, ?_⟩
              rwa [boundaryState_cons_succ] at hcomp

/-- C3: the monitoring loop exits exactly when `is_completed` holds at an
iteration boundary; a completion signal delivered during an iteration
lets that iteration finish (its notifications included) and takes effect
at the next boundary check; an exception raised inside an iteration is
caught, produces no notification and the loop continues; and on exit the
workflow returns `{"success": True, "task_id": self.task_id}`. -/
theorem monitoring_loop_exit_semantics :
    (∀ (s : LifecycleState) (its : List MonIter),
        (monitorRun s its).isSome = true ↔
          ∃ k, k ≤ its.length ∧ (boundaryState s its k).is_completed = true) ∧
    (∀ (s : LifecycleState) (it : MonIter) (rest : List MonIter),
        s.is_completed = false → Sig.completed ∈ it.sigs →
        monitorRun s (it :: rest) = Option.some (stepState s it, (monitorStep s it).2)) ∧
    (∀ (s : LifecycleState) (it : MonIter) (rest : List MonIter) (e : PyErr),
        s.is_completed = false → it.check = Except.error e →
        monitorRun s (it :: rest) = monitorRun (stepState s it) rest) ∧
    (∀ (s : LifecycleState) (its : List MonIter) (final : LifecycleState) (ns : List Notif),
        monitorRun s its = Option.some (final, ns) →
        monitor_and_return s its =
          Option.some (PyVal.dict [("success", PyVal.bool true),
            ("task_id", final.task_id)])) := by
  refine ⟨fun s its => monitorRun_isSome_iff its s, ?_, ?_, ?_⟩
  · intro s it rest hs hmem
    have hcomp : (stepState s it).is_completed = true :=
      applySigs_completed_of_mem it.sigs s hmem
    have hrest := monitorRun_completed (stepState s it) rest hcomp
    simp [monitorRun, hs, hrest]
  · intro s it rest e hs hchk
    have h2 : (monitorStep s it).2 = [] := by simp [monitorStep, hchk]
    cases hm : monitorRun (stepState s it) rest with
    | none => simp [monitorRun, hs, hm]
    | some p => cases p with | mk f ms => simp [monitorRun, hs, hm, h2]
  · intro s its final ns h
    simp [monitor_and_return, h]

/-- C3 witness: an instance not yet complete receives the completion
signal during an iteration whose deadline check reports overdue with no
assignee; the iteration finishes (sending nothing) and the loop exits at
the next boundary. -/
theorem monitoring_loop_exit_semantics_witness :
    monitorRun { task_id := PyVal.str "t1", assigned_user := PyVal.none, is_completed := false }
        [{ sigs := [Sig.completed], check := Except.ok overdueCheck }] =
      Option.some
        ({ task_id := PyVal.str "t1", assigned_user := PyVal.none, is_completed := true }, []) := by
  have h := monitoring_loop_exit_semantics.2.1
    { task_id := PyVal.str "t1", assigned_user := PyVal.none, is_completed := false }
    { sigs := [Sig.completed], check := Except.ok overdueCheck } [] rfl
    (List.mem_singleton.mpr rfl)
  exact h.trans rfl

end RelAI
